import Mathlib

/-!
Shallow embedding of the calculator engine of `src/src/App.tsx`
(Traffic-Tech/RonnieTest).  JavaScript numbers are modelled exactly over
the rationals, together with explicit constructors for the JS values
`NaN` and `undefined` that the code can produce; display strings are
Lean strings.  Double rounding is not modelled; every theorem below
stays within values where JS doubles are exact.

Because Mathlib's `Rat.add`, `Rat.sub` and `Rat.mul` are irreducible
and cannot be evaluated by the kernel, the embedding computes them
through `mkRat` on numerators and denominators (`ratAdd`, `ratSub`,
`ratMul` below), and the lemmas `ratAdd_eq`, `ratSub_eq`, `ratMul_eq`
prove these equal to the Mathlib operations, so the theorems can be
stated against ordinary `+`, `-`, `*`.
-/

/-- Exact rational addition, computed on numerators and denominators so
that the kernel can evaluate it; `ratAdd_eq` proves it is `a + b`. -/
def ratAdd (a b : ℚ) : ℚ := mkRat (a.num * b.den + b.num * a.den) (a.den * b.den)

/-- Exact rational subtraction, kernel-computable; `ratSub_eq` proves it
is `a - b`. -/
def ratSub (a b : ℚ) : ℚ := mkRat (a.num * b.den - b.num * a.den) (a.den * b.den)

/-- Exact rational multiplication, kernel-computable; `ratMul_eq` proves
it is `a * b`. -/
def ratMul (a b : ℚ) : ℚ := mkRat (a.num * b.num) (a.den * b.den)

theorem ratAdd_eq (a b : ℚ) : ratAdd a b = a + b := by
  unfold ratAdd
  rw [Rat.mkRat_eq_div]
  have ha : ((a.den : ℚ)) ≠ 0 := Nat.cast_ne_zero.mpr a.den_nz
  have hb : ((b.den : ℚ)) ≠ 0 := Nat.cast_ne_zero.mpr b.den_nz
  conv_rhs => rw [← Rat.num_div_den a, ← Rat.num_div_den b]
  push_cast
  field_simp

theorem ratSub_eq (a b : ℚ) : ratSub a b = a - b := by
  unfold ratSub
  rw [Rat.mkRat_eq_div]
  have ha : ((a.den : ℚ)) ≠ 0 := Nat.cast_ne_zero.mpr a.den_nz
  have hb : ((b.den : ℚ)) ≠ 0 := Nat.cast_ne_zero.mpr b.den_nz
  conv_rhs => rw [← Rat.num_div_den a, ← Rat.num_div_den b]
  push_cast
  field_simp
  ring

theorem ratMul_eq (a b : ℚ) : ratMul a b = a * b := by
  unfold ratMul
  rw [Rat.mkRat_eq_div]
  have ha : ((a.den : ℚ)) ≠ 0 := Nat.cast_ne_zero.mpr a.den_nz
  have hb : ((b.den : ℚ)) ≠ 0 := Nat.cast_ne_zero.mpr b.den_nz
  conv_rhs => rw [← Rat.num_div_den a, ← Rat.num_div_den b]
  push_cast
  field_simp

/-- A JavaScript numeric value as the calculator manipulates it: an
exact rational standing for an ordinary number, `nan` for `NaN`, and
`undef` for `undefined` (which arises when a state object omits a
field). -/
inductive JSNum where
  | num (q : ℚ)
  | nan
  | undef
deriving DecidableEq

/-- JS `+` on the values reachable here: `NaN` and `undefined` operands
propagate to `NaN`. -/
def jsAdd : JSNum → JSNum → JSNum
  | JSNum.num a, JSNum.num b => JSNum.num (ratAdd a b)
  | _, _ => JSNum.nan

/-- JS `-` on the values reachable here. -/
def jsSub : JSNum → JSNum → JSNum
  | JSNum.num a, JSNum.num b => JSNum.num (ratSub a b)
  | _, _ => JSNum.nan

/-- JS `*` on the values reachable here. -/
def jsMul : JSNum → JSNum → JSNum
  | JSNum.num a, JSNum.num b => JSNum.num (ratMul a b)
  | _, _ => JSNum.nan

/-- JS `/` as used by `calculate`: the source guards `secondValue !== 0`
before dividing, so the `b = 0` branch (`Infinity` in JS) is never
reached from `calculate`; it is mapped to `nan` here and no theorem
depends on it. -/
def jsDiv : JSNum → JSNum → JSNum
  | JSNum.num a, JSNum.num b => if b = 0 then JSNum.nan else JSNum.num (a / b)
  | _, _ => JSNum.nan

/-- JS strict comparison `x !== 0` (true for `NaN` and `undefined`). -/
def jsNe0 : JSNum → Bool
  | JSNum.num b => decide (b ≠ 0)
  | _ => true

/-- Numeric value of a list of decimal digit characters. -/
def natOfDigits (ds : List Char) : ℕ :=
  ds.foldl (fun n c => 10 * n + (c.toNat - 48)) 0

/-- Models the JS builtin `parseFloat` on the decimal fragment the
calculator produces: optional sign, integer digits, optional fraction
digits, trailing characters ignored; no digits at all gives `NaN`.  The
value `±(i.f)` is assembled as the exact rational
`(sign * (i * 10^len + f)) / 10^len`.  Exponent forms never occur in
the display strings the claims concern. -/
def jsParseFloat (s : String) : JSNum :=
  let cs := s.data
  let neg : Bool := match cs with
    | '-' :: _ => true
    | _ => false
  let cs' := match cs with
    | '-' :: rest => rest
    | '+' :: rest => rest
    | _ => cs
  let intDs := cs'.takeWhile Char.isDigit
  let rest := cs'.dropWhile Char.isDigit
  let fracDs := match rest with
    | '.' :: r => r.takeWhile Char.isDigit
    | _ => []
  if intDs.isEmpty && fracDs.isEmpty then JSNum.nan
  else
    let scaled : ℤ := natOfDigits intDs * 10 ^ fracDs.length + natOfDigits fracDs
    JSNum.num (mkRat (if neg then -scaled else scaled) (10 ^ fracDs.length))

/-- Number of times `p` divides `n`, computed with explicit fuel so that
the kernel can evaluate it (the fuel `n` always suffices since the
argument strictly decreases). -/
def divCountFuel : ℕ → ℕ → ℕ → ℕ
  | 0, _, _ => 0
  | fuel + 1, p, n => if 1 < p ∧ n ≠ 0 ∧ n % p = 0 then divCountFuel fuel p (n / p) + 1 else 0

/-- Number of times `p` divides `n`. -/
def divCount (p n : ℕ) : ℕ := divCountFuel n p n

/-- Exact decimal rendering of a nonnegative rational whose denominator
is of the form `2^a * 5^b`, matching how JS `String` renders such a
double (shortest form, no trailing zeros, no thousands separators).
Integers simply print their digits.  A fractional value is scaled by
`10^k` with `k = max a b` and printed with a decimal point inserted.
Rationals whose denominator has other prime factors have no finite
decimal expansion; JS would print a rounded double there, which is not
modelled, and no theorem below reaches that branch. -/
def renderNonneg (q : ℚ) : String :=
  if q.den = 1 then toString q.num.toNat
  else
    let k := max (divCount 2 q.den) (divCount 5 q.den)
    if 10 ^ k % q.den = 0 then
      let m := q.num.toNat * (10 ^ k / q.den)
      let digits := toString m
      let padded :=
        if digits.length ≤ k then String.mk (List.replicate (k + 1 - digits.length) '0') ++ digits
        else digits
      padded.take (padded.length - k) ++ "." ++ padded.drop (padded.length - k)
    else toString q.num ++ "/" ++ toString q.den

/-- JS `String` rendering of calculator values. -/
def jsRender : JSNum → String
  | JSNum.num q => if q < 0 then "-" ++ renderNonneg (-q) else renderNonneg q
  | JSNum.nan => "NaN"
  | JSNum.undef => "undefined"

/-- The `CalculatorState` record of App.tsx (lines 3-9).  `previousValue`
is `number | null` and `operation` is `string | null`, both modelled with
`Option`; `memory` is declared `number` but can become `undefined` at
runtime (see `clearDisplay`), so it carries a full `JSNum`. -/
structure CalculatorState where
  display : String
  previousValue : Option JSNum
  operation : Option String
  waitingForNumber : Bool
  memory : JSNum
deriving DecidableEq

/-- The initial state passed to `useState` (App.tsx lines 12-18). -/
def initialState : CalculatorState :=
  { display := "0", previousValue := none, operation := none,
    waitingForNumber := false, memory := JSNum.num 0 }

/-- JS truthiness of a `string | null` value (`null` and `""` are falsy). -/
def jsTruthy : Option String → Bool
  | none => false
  | some s => decide (s ≠ "")

/-- JS `x || 0` on a `number | null` left operand (`null`, `NaN`,
`undefined` and `0` are all falsy). -/
def jsOr0 : Option JSNum → JSNum
  | some (JSNum.num q) => if q = 0 then JSNum.num 0 else JSNum.num q
  | _ => JSNum.num 0

/-- `inputNumber` (App.tsx lines 28-41). -/
def inputNumber (num : String) (state : CalculatorState) : CalculatorState :=
  if state.waitingForNumber then
    { state with display := num, waitingForNumber := false }
  else
    { state with display := if state.display = "0" then num else state.display ++ num }

/-- `calculate` (App.tsx lines 67-80). -/
def calculate (firstValue secondValue : JSNum) (operation : String) : JSNum :=
  if operation = "+" then jsAdd firstValue secondValue
  else if operation = "-" then jsSub firstValue secondValue
  else if operation = "*" then jsMul firstValue secondValue
  else if operation = "/" then
    if jsNe0 secondValue then jsDiv firstValue secondValue else JSNum.num 0
  else secondValue

/-- `inputOperation` (App.tsx lines 43-65). -/
def inputOperation (nextOperation : String) (state : CalculatorState) : CalculatorState :=
  let inputValue := jsParseFloat state.display
  match state.previousValue with
  | none =>
      { state with previousValue := some inputValue, operation := some nextOperation,
                   waitingForNumber := true }
  | some _ =>
      if jsTruthy state.operation then
        let currentValue := jsOr0 state.previousValue
        let newValue := calculate currentValue inputValue (state.operation.getD "")
        { state with display := jsRender newValue, previousValue := some newValue,
                     operation := some nextOperation, waitingForNumber := true }
      else state

/-- `performCalculation` (App.tsx lines 82-95). -/
def performCalculation (state : CalculatorState) : CalculatorState :=
  let inputValue := jsParseFloat state.display
  match state.previousValue with
  | some pv =>
      if jsTruthy state.operation then
        let newValue := calculate pv inputValue (state.operation.getD "")
        { state with display := jsRender newValue, previousValue := none,
                     operation := none, waitingForNumber := true }
      else state
  | none => state

/-- `clearDisplay` (App.tsx lines 97-104).  The object literal passed to
`setState` has no `...state` spread and omits the `memory` field, even
though the `CalculatorState` interface declares `memory: number`; the
`useState` setter replaces the state wholesale, so at runtime `memory`
becomes `undefined`, modelled as `JSNum.undef`. -/
def clearDisplay (_ : CalculatorState) : CalculatorState :=
  { display := "0", previousValue := none, operation := none,
    waitingForNumber := false, memory := JSNum.undef }

/-- `clearEntry` (App.tsx lines 106-111). -/
def clearEntry (state : CalculatorState) : CalculatorState :=
  { state with display := "0" }

/-- `memoryClear` (App.tsx lines 113-118). -/
def memoryClear (state : CalculatorState) : CalculatorState :=
  { state with memory := JSNum.num 0 }

/-- `memoryRecall` (App.tsx lines 120-126). -/
def memoryRecall (state : CalculatorState) : CalculatorState :=
  { state with display := jsRender state.memory, waitingForNumber := true }

/-- `memoryAdd` (App.tsx lines 128-135). -/
def memoryAdd (state : CalculatorState) : CalculatorState :=
  { state with memory := jsAdd state.memory (jsParseFloat state.display),
               waitingForNumber := true }

/-- `memorySubtract` (App.tsx lines 137-144). -/
def memorySubtract (state : CalculatorState) : CalculatorState :=
  { state with memory := jsSub state.memory (jsParseFloat state.display),
               waitingForNumber := true }

/-- `toggleSign` (App.tsx lines 146-154). -/
def toggleSign (state : CalculatorState) : CalculatorState :=
  if state.display ≠ "0" then
    let value := jsMul (jsParseFloat state.display) (JSNum.num (-1))
    { state with display := jsRender value }
  else state

/-- `inputDecimal` (App.tsx lines 156-169); the check
`display.indexOf('.') === -1` is modelled as `'.'` not occurring among
the display's characters. -/
def inputDecimal (state : CalculatorState) : CalculatorState :=
  if state.waitingForNumber then
    { state with display := "0.", waitingForNumber := false }
  else if '.' ∈ state.display.data then state
  else { state with display := state.display ++ "." }

/-- The digit keys wired to `inputNumber` (buttons and `handleKeyPress`). -/
def digitKeys : List String := ["0", "1", "2", "3", "4", "5", "6", "7", "8", "9"]

/-- The operator keys wired to `inputOperation`. -/
def opKeys : List String := ["+", "-", "*", "/"]

/-- States reachable from the initial state by the operations the UI
exposes (buttons and `handleKeyPress`). -/
inductive Reachable : CalculatorState → Prop where
  | init : Reachable initialState
  | digit {s} (d : String) (hd : d ∈ digitKeys) (h : Reachable s) : Reachable (inputNumber d s)
  | operatorKey {s} (o : String) (ho : o ∈ opKeys) (h : Reachable s) :
      Reachable (inputOperation o s)
  | equalsKey {s} (h : Reachable s) : Reachable (performCalculation s)
  | clearAllKey {s} (h : Reachable s) : Reachable (clearDisplay s)
  | clearEntryKey {s} (h : Reachable s) : Reachable (clearEntry s)
  | memClearKey {s} (h : Reachable s) : Reachable (memoryClear s)
  | memRecallKey {s} (h : Reachable s) : Reachable (memoryRecall s)
  | memAddKey {s} (h : Reachable s) : Reachable (memoryAdd s)
  | memSubKey {s} (h : Reachable s) : Reachable (memorySubtract s)
  | signKey {s} (h : Reachable s) : Reachable (toggleSign s)
  | decimalKey {s} (h : Reachable s) : Reachable (inputDecimal s)

/-- `state.previousValue || 0` evaluated at an actual number is that
number (when the number is `0`, the falsy fallback also yields `0`). -/
theorem jsOr0_num (q : ℚ) : jsOr0 (some (JSNum.num q)) = JSNum.num q := by
  by_cases h : q = 0 <;> simp [jsOr0, h]

/-- Pressing a sequence of digit keys in order. -/
def pressDigits (ds : List String) (s : CalculatorState) : CalculatorState :=
  ds.foldl (fun t d => inputNumber d t) s

/-- A digit-key sequence keeps the state reachable. -/
theorem reachable_pressDigits (ds : List String) (s : CalculatorState)
    (hds : ∀ d ∈ ds, d ∈ digitKeys) (h : Reachable s) : Reachable (pressDigits ds s) := by
  induction ds generalizing s with
  | nil => exact h
  | cons d ds ih =>
      exact ih (inputNumber d s) (fun x hx => hds x (List.mem_cons_of_mem d hx))
        (Reachable.digit d (hds d (List.mem_cons_self d ds)) h)

example : jsParseFloat "0.0" = JSNum.num 0 := by decide

example : jsParseFloat "5" = JSNum.num 5 := by decide

example : jsRender (JSNum.num 20) = "20" := by decide

example : jsRender (JSNum.num (mkRat 1 2)) = "0.5" := by decide

/-- C1: the claim states that `clearAll` preserves the memory register
(`clearAll(state).memory = state.memory`).  The code's `clearDisplay`
instead replaces the state with an object that omits the `memory`
field, so a memory of 7 (obtained by pressing 7 then M+) becomes
`undefined` after clear-all, refuting preservation — the spec is the
intent and the omission is a slip (it also contradicts the
`CalculatorState` interface, which declares `memory: number`). -/
theorem clearDisplay_drops_memory :
    (memoryAdd (inputNumber "7" initialState)).memory = JSNum.num 7 ∧
    (clearDisplay (memoryAdd (inputNumber "7" initialState))).memory = JSNum.undef ∧
    JSNum.undef ≠ JSNum.num 7 := by decide

/-- C2: operator chaining is strictly left-associative with immediate
application: with an operation pending, a new operator first evaluates
the pending operation on the previous value and the parsed display and
stores the result as the new previous value; concretely the key
sequence 2, +, 3, *, 4, = yields display "20", not "14". -/
theorem operator_chaining_left_assoc :
    (∀ (s : CalculatorState) (q : ℚ) (nextOp : String),
        s.previousValue = some (JSNum.num q) → jsTruthy s.operation = true →
        inputOperation nextOp s =
          { s with
              display := jsRender (calculate (JSNum.num q) (jsParseFloat s.display)
                (s.operation.getD "")),
              previousValue := some (calculate (JSNum.num q) (jsParseFloat s.display)
                (s.operation.getD "")),
              operation := some nextOp,
              waitingForNumber := true }) ∧
    (performCalculation (inputNumber "4" (inputOperation "*" (inputNumber "3"
      (inputOperation "+" (inputNumber "2" initialState)))))).display = "20" ∧
    (performCalculation (inputNumber "4" (inputOperation "*" (inputNumber "3"
      (inputOperation "+" (inputNumber "2" initialState)))))).display ≠ "14" := by
  refine ⟨?_, by decide, by decide⟩
  intro s q nextOp hp hop
  simp [inputOperation, hp, hop, jsOr0_num]

/-- C2 witness: the general part of `operator_chaining_left_assoc`
applied to the state reached after 2, +, 3, at the * keypress. -/
theorem operator_chaining_left_assoc_witness :
    jsTruthy (some "+") = true ∧
    inputOperation "*" (⟨"3", some (JSNum.num 2), some "+", false, JSNum.num 0⟩ : CalculatorState) =
      (⟨"5", some (JSNum.num 5), some "*", true, JSNum.num 0⟩ : CalculatorState) := by
  refine ⟨by decide, ?_⟩
  have h := operator_chaining_left_assoc.1
    ⟨"3", some (JSNum.num 2), some "+", false, JSNum.num 0⟩ 2 "*" rfl (by decide)
  exact h.trans (by decide)

/-- C3: the claimed display invariant (always a plain decimal numeral,
never exponent notation) is violated by the code along a path where
every double is exact.  This theorem verifies that trace inside the
embedding up to the rendering point: typing 1 followed by 21 zeros is
reachable and leaves display "1000000000000000000000"; parsing it gives
exactly 10^21 (a representable double), and memory-add stores exactly
10^21 (0 + 10^21 is exact).  The subsequent memory-recall sets display
to `String(1e21)`, which ECMAScript renders as "1e+21" — exponent
notation, not a decimal numeral.  That final rendering step is
IEEE-754/ECMAScript-specific (`jsRender` prints plain digits instead),
which is why the violation is recorded by exhibiting the exact reachable
trace rather than by evaluating the render. -/
theorem display_exponent_overflow :
    Reachable (pressDigits (List.replicate 21 "0") (inputNumber "1" initialState)) ∧
    (pressDigits (List.replicate 21 "0") (inputNumber "1" initialState)).display =
      "1000000000000000000000" ∧
    jsParseFloat "1000000000000000000000" = JSNum.num 1000000000000000000000 ∧
    (memoryAdd (pressDigits (List.replicate 21 "0") (inputNumber "1" initialState))).memory =
      JSNum.num 1000000000000000000000 := by
  refine ⟨reachable_pressDigits (List.replicate 21 "0") (inputNumber "1" initialState)
    (by decide) (Reachable.digit "1" (by decide) Reachable.init), by decide, by decide, by decide⟩

/-- C4: `calculate` returns a+b, a-b, a*b for the first three operator
tags, returns 0 when dividing by zero and a/b otherwise; and the key
sequence 5, /, 0, = ends with display "0" (no error, infinity or NaN). -/
theorem calculate_arithmetic :
    (∀ a b : ℚ,
        calculate (JSNum.num a) (JSNum.num b) "+" = JSNum.num (a + b) ∧
        calculate (JSNum.num a) (JSNum.num b) "-" = JSNum.num (a - b) ∧
        calculate (JSNum.num a) (JSNum.num b) "*" = JSNum.num (a * b) ∧
        calculate (JSNum.num a) (JSNum.num 0) "/" = JSNum.num 0 ∧
        (b ≠ 0 → calculate (JSNum.num a) (JSNum.num b) "/" = JSNum.num (a / b))) ∧
    (performCalculation (inputNumber "0" (inputOperation "/"
      (inputNumber "5" initialState)))).display = "0" := by
  refine ⟨fun a b => ⟨?_, ?_, ?_, rfl, fun hb => ?_⟩, by decide⟩
  · exact congrArg JSNum.num (ratAdd_eq a b)
  · exact congrArg JSNum.num (ratSub_eq a b)
  · exact congrArg JSNum.num (ratMul_eq a b)
  · have h1 : jsNe0 (JSNum.num b) = true := by simp [jsNe0, hb]
    show (if jsNe0 (JSNum.num b) then jsDiv (JSNum.num a) (JSNum.num b) else JSNum.num 0) =
      JSNum.num (a / b)
    rw [h1]
    simp [jsDiv, hb]

/-- C4 witness: the divide branch of `calculate_arithmetic` at a = 3,
b = 2. -/
theorem calculate_arithmetic_witness :
    ((2 : ℚ) ≠ 0) ∧ calculate (JSNum.num 3) (JSNum.num 2) "/" = JSNum.num (3 / 2) :=
  ⟨by decide, (calculate_arithmetic.1 3 2).2.2.2.2 (by decide)⟩

/-- C5: any operator tag other than "+", "-", "*", "/" makes `calculate`
return the second operand unchanged. -/
theorem calculate_identity_fallback (a b : ℚ) (op : String)
    (h1 : op ≠ "+") (h2 : op ≠ "-") (h3 : op ≠ "*") (h4 : op ≠ "/") :
    calculate (JSNum.num a) (JSNum.num b) op = JSNum.num b := by
  simp [calculate, h1, h2, h3, h4]

/-- C5 witness: `calculate_identity_fallback` at the unrecognized tag
"%". -/
theorem calculate_identity_fallback_witness :
    ("%" ≠ "+") ∧ ("%" ≠ "-") ∧ ("%" ≠ "*") ∧ ("%" ≠ "/") ∧
    calculate (JSNum.num 1) (JSNum.num 2) "%" = JSNum.num 2 :=
  ⟨by decide, by decide, by decide, by decide,
    calculate_identity_fallback 1 2 "%" (by decide) (by decide) (by decide) (by decide)⟩

/-- C6: `inputDecimal` is idempotent — applying it twice in a row gives
the same state as applying it once. -/
theorem inputDecimal_idempotent (s : CalculatorState) :
    inputDecimal (inputDecimal s) = inputDecimal s := by
  by_cases hw : s.waitingForNumber = true
  · have h1 : inputDecimal s = { s with display := "0.", waitingForNumber := false } := by
      simp [inputDecimal, hw]
    rw [h1]
    have h2 : '.' ∈ ("0." : String).data := by decide
    simp [inputDecimal, h2]
  · by_cases hd : '.' ∈ s.display.data
    · have h1 : inputDecimal s = s := by simp [inputDecimal, hw, hd]
      simp [h1]
    · have h1 : inputDecimal s = { s with display := s.display ++ "." } := by
        simp [inputDecimal, hw, hd]
      rw [h1]
      have h2 : '.' ∈ (s.display ++ ".").data := by
        rw [String.data_append]
        exact List.mem_append_right _ (by decide)
      simp [inputDecimal, hw, h2]

/-- C7: `clearEntry` resets only the display to "0" and leaves
`previousValue`, `operation`, `waitingForNumber` and `memory` as they
were; concretely after 5, +, 3, pressing CE and then = yields display
"5" — the pending + and previous value 5 survive. -/
theorem clearEntry_display_only :
    (∀ s : CalculatorState, clearEntry s = { s with display := "0" }) ∧
    (performCalculation (clearEntry (inputNumber "3" (inputOperation "+"
      (inputNumber "5" initialState))))).display = "5" :=
  ⟨fun _ => rfl, by decide⟩

/-- C8: memory round-trip — from the default state, 7 then M+ sets the
memory to 7, MR then shows "7", and after MC a further MR shows "0". -/
theorem memory_round_trip :
    (memoryAdd (inputNumber "7" initialState)).memory = JSNum.num 7 ∧
    (memoryRecall (memoryAdd (inputNumber "7" initialState))).display = "7" ∧
    (memoryRecall (memoryClear (memoryRecall (memoryAdd
      (inputNumber "7" initialState))))).display = "0" := by decide

/-- C9: in every state reachable from the initial state by the wired
operations, `previousValue` is absent exactly when `operation` is
absent. -/
theorem previousValue_none_iff_operation_none {s : CalculatorState} (h : Reachable s) :
    s.previousValue = none ↔ s.operation = none := by
  induction h with
  | init => simp [initialState]
  | digit d hd h ih =>
      unfold inputNumber
      split <;> exact ih
  | operatorKey o ho h ih =>
      rename_i s'
      cases hpv : s'.previousValue with
      | none => simp [inputOperation, hpv]
      | some v =>
          by_cases ht : jsTruthy s'.operation = true
          · simp [inputOperation, hpv, ht]
          · rw [hpv] at ih
            simp only [inputOperation, hpv, ht, Bool.false_eq_true, if_false]
            exact ih
  | equalsKey h ih =>
      rename_i s'
      cases hpv : s'.previousValue with
      | none =>
          rw [hpv] at ih
          simp only [performCalculation, hpv]
          simpa using ih
      | some pv =>
          by_cases ht : jsTruthy s'.operation = true
          · simp [performCalculation, hpv, ht]
          · rw [hpv] at ih
            simp only [performCalculation, hpv, ht, Bool.false_eq_true, if_false]
            exact ih
  | clearAllKey h ih => simp [clearDisplay]
  | clearEntryKey h ih => exact ih
  | memClearKey h ih => exact ih
  | memRecallKey h ih => exact ih
  | memAddKey h ih => exact ih
  | memSubKey h ih => exact ih
  | signKey h ih =>
      unfold toggleSign
      split <;> exact ih
  | decimalKey h ih =>
      unfold inputDecimal
      split
      · exact ih
      · split <;> exact ih

/-- C9 witness: the invariant at the initial state. -/
theorem previousValue_none_iff_operation_none_witness :
    initialState.previousValue = none ↔ initialState.operation = none :=
  previousValue_none_iff_operation_none Reachable.init

/-- C10: `toggleSign`'s no-op guard compares the display string with the
literal "0", not the parsed value with zero: on a zero-valued display
other than exactly "0" (such as "0.0") it rewrites the display to the
rendering of the negated parsed value, which is "0" (JS String(-0)),
changing the display; on display exactly "0" it leaves the state
unchanged. -/
theorem toggleSign_zero_guard :
    (∀ s : CalculatorState, s.display = "0" → toggleSign s = s) ∧
    (∀ s : CalculatorState, s.display ≠ "0" → jsParseFloat s.display = JSNum.num 0 →
        toggleSign s = { s with display := "0" } ∧ (toggleSign s).display ≠ s.display) := by
  constructor
  · intro s h
    simp [toggleSign, h]
  · intro s h hz
    have h1 : toggleSign s =
        { s with display := jsRender (jsMul (jsParseFloat s.display) (JSNum.num (-1))) } := by
      simp [toggleSign, h]
    rw [hz] at h1
    have h2 : jsRender (jsMul (JSNum.num 0) (JSNum.num (-1))) = "0" := by decide
    rw [h2] at h1
    refine ⟨h1, ?_⟩
    rw [h1]
    exact Ne.symm h

/-- C10 witness: `toggleSign_zero_guard` at the zero-valued display
"0.0", which is rewritten to "0". -/
theorem toggleSign_zero_guard_witness :
    (("0.0" : String) ≠ "0") ∧ jsParseFloat "0.0" = JSNum.num 0 ∧
    toggleSign (⟨"0.0", none, none, false, JSNum.num 0⟩ : CalculatorState) =
      (⟨"0", none, none, false, JSNum.num 0⟩ : CalculatorState) := by
  refine ⟨by decide, by decide, ?_⟩
  exact (toggleSign_zero_guard.2 ⟨"0.0", none, none, false, JSNum.num 0⟩
    (by decide) (by decide)).1
